import Mathlib

/-!
Verification development for the CheckIT repository (Kek5chen/CheckIT).

The Rust sources under `src/` are shallowly embedded as Lean definitions:

* pure functions become Lean functions on the same data;
* the reactive `iced` update loop becomes explicit state passing: every
  `update` returns the new view state together with a value describing the
  task it would spawn;
* external collaborators (the `nix`/`nvd` processes, the ssh transport, the
  filesystem, `serde_json`, `ansi_parser`, `whoami`, `rfd`) are modelled at
  their interfaces by oracle parameters, following the fixed argument
  contracts the code invokes them with;
* fallible Rust code returns `Except`/an explicit result type; a Rust panic
  (`todo!`, `.expect`) is a distinguished `panic` outcome, never a value;
* `f32` progress values: the program only ever constructs the integer-valued
  literals `0.0 .. 10.0`, all exactly representable, so progress is embedded
  as `Nat`;
* error message strings follow the source texts up to punctuation
  (apostrophes are spelled out, `format!` interpolations are concatenations).
-/

namespace CheckIT

/-! ## src/utils/ansi_to_rich.rs -/

/-- `iced::Color` as produced by `Color::from_rgb8`: the code only ever builds
colors from three byte components, so the embedding keeps the bytes. -/
structure Color where
  r : Nat
  g : Nat
  b : Nat
deriving DecidableEq, Repr

/-- `Color::from_rgb8`. -/
def Color.from_rgb8 (r g b : Nat) : Color := ⟨r, g, b⟩

/-- `ansi_color_from_code` from src/utils/ansi_to_rich.rs: the fixed 16-entry
foreground palette (8 standard + 8 bright), defaulting to black. -/
def ansi_color_from_code (code : Nat) : Color :=
  match code with
  | 30 => Color.from_rgb8 0x00 0x00 0x00
  | 31 => Color.from_rgb8 0x80 0x00 0x00 -- red
  | 32 => Color.from_rgb8 0x00 0x80 0x00 -- green
  | 33 => Color.from_rgb8 0x80 0x80 0x00 -- yellow
  | 34 => Color.from_rgb8 0x00 0x00 0x80 -- blue
  | 35 => Color.from_rgb8 0x80 0x00 0x80 -- magenta
  | 36 => Color.from_rgb8 0x00 0x80 0x80 -- cyan
  | 37 => Color.from_rgb8 0xc0 0xc0 0xc0 -- white
  | 90 => Color.from_rgb8 0x80 0x80 0x80 -- bright black (gray)
  | 91 => Color.from_rgb8 0xff 0x00 0x00 -- bright red
  | 92 => Color.from_rgb8 0x00 0xff 0x00 -- bright green
  | 93 => Color.from_rgb8 0xff 0xff 0x00 -- bright yellow
  | 94 => Color.from_rgb8 0x00 0x00 0xff -- bright blue
  | 95 => Color.from_rgb8 0xff 0x00 0xff -- bright magenta
  | 96 => Color.from_rgb8 0x00 0xff 0xff -- bright cyan
  | 97 => Color.from_rgb8 0xff 0xff 0xff -- bright white
  | _ => Color.from_rgb8 0x00 0x00 0x00

/-- The `ansi_parser` crate's `AnsiSequence`, at the interface `ansi_to_rich`
consumes: the code matches `SetGraphicsMode(mode)` and ignores every other
escape variant, so all the others collapse into one constructor. -/
inductive AnsiSequence where
  | SetGraphicsMode (mode : List Nat)
  | OtherEscape
deriving DecidableEq, Repr

/-- The `ansi_parser` crate's `Output`: one token of the tokenized input. -/
inductive Output where
  | TextBlock (text : String)
  | Escape (esc : AnsiSequence)
deriving DecidableEq, Repr

/-- One styled segment, as built by `span(text).color_maybe(color)`:
a substring and an optional foreground color. -/
structure Seg where
  text : String
  color : Option Color
deriving DecidableEq, Repr

/-- The body of the `SetGraphicsMode` parameter loop in `ansi_to_rich`
(one `param` of the `for param in mode` loop), mirroring the Rust match arms:
`0 => None`, `30..=37`, `90..=97`, `39 => None`, `_ => {}`. -/
def applyGraphicsParam (color : Option Color) (param : Nat) : Option Color :=
  if param = 0 then none
  else if 30 ≤ param ∧ param ≤ 37 then some (ansi_color_from_code param)
  else if 90 ≤ param ∧ param ≤ 97 then some (ansi_color_from_code param)
  else if param = 39 then none
  else color

/-- The token loop of `ansi_to_rich`, with the mutable `color` state made an
explicit argument: a text block pushes one segment carrying the current color;
a graphics-mode escape folds its parameters into the color; every other escape
is skipped. -/
def ansi_to_rich_go (color : Option Color) : List Output → List Seg
  | [] => []
  | Output.TextBlock t :: rest =>
      { text := t, color := color } :: ansi_to_rich_go color rest
  | Output.Escape (AnsiSequence.SetGraphicsMode mode) :: rest =>
      ansi_to_rich_go (mode.foldl applyGraphicsParam color) rest
  | Output.Escape AnsiSequence.OtherEscape :: rest =>
      ansi_to_rich_go color rest

/-- `ansi_to_rich` from src/utils/ansi_to_rich.rs, over the token list the
external `ansi_parse` tokenizer yields for the input text; the color state
starts as `None`. -/
def ansi_to_rich (tokens : List Output) : List Seg :=
  ansi_to_rich_go none tokens

/-! Spec-side restatement of §4.4 for claim C8, written from the claim's
words rather than from the loop: a segment per text block, whose color is
determined by the *most recent* graphics-mode parameter among
`30..=37`, `90..=97` (palette color), `0`, `39` (reset, no color); no color
when no such parameter precedes the block; everything else ignored. -/

/-- A graphics parameter that selects a palette color (`30..=37` or `90..=97`). -/
def isColorParam (p : Nat) : Bool := (30 ≤ p && p ≤ 37) || (90 ≤ p && p ≤ 97)

/-- A graphics parameter that resets the color (`0` or `39`). -/
def isResetParam (p : Nat) : Bool := p == 0 || p == 39

/-- A graphics parameter the spec says affects the color at all. -/
def relevantParam (p : Nat) : Bool := isColorParam p || isResetParam p

/-- The color selected by the most recent relevant parameter of `ps`, given
the color `c` active before `ps`: a trailing color parameter maps through the
palette, a trailing reset clears, and with no relevant parameter the previous
color stands. -/
def colorAfterParams (c : Option Color) (ps : List Nat) : Option Color :=
  match (ps.filter relevantParam).getLast? with
  | some p => if isColorParam p then some (ansi_color_from_code p) else none
  | none => c

/-- The graphics-mode parameters a single token contributes. -/
def tokenParams : Output → List Nat
  | Output.Escape (AnsiSequence.SetGraphicsMode m) => m
  | _ => []

/-- All graphics parameters of a token list, in order. -/
def allParams (tokens : List Output) : List Nat :=
  (tokens.map tokenParams).flatten

/-- The color active after the token prefix `pre`: determined by the most
recent relevant graphics parameter in `pre`, starting from no color. -/
def activeColor (pre : List Output) : Option Color :=
  colorAfterParams none (allParams pre)

/-- Spec-side segment builder: walks the tokens keeping the already-consumed
prefix `pre`; each text block yields one segment colored by `activeColor pre`. -/
def ansiSegmentsSpec_go (pre : List Output) : List Output → List Seg
  | [] => []
  | Output.TextBlock t :: rest =>
      { text := t, color := activeColor pre } ::
        ansiSegmentsSpec_go (pre ++ [Output.TextBlock t]) rest
  | Output.Escape e :: rest =>
      ansiSegmentsSpec_go (pre ++ [Output.Escape e]) rest

/-- §4.4 / claim C8 as stated: one segment per text block, colored by the most
recent relevant graphics parameter of the preceding input. -/
def ansiSegmentsSpec (tokens : List Output) : List Seg :=
  ansiSegmentsSpec_go [] tokens

/-! ## src/pages/nix_diff.rs — data model -/

/-- `std::path::PathBuf`, embedded as its list of components. -/
abbrev Path := List String

/-- `Path::ends_with` with a single-component needle: the final component must
equal it (`cluster_path.ends_with("flake.nix")`). -/
def pathEndsWith (p : Path) (s : String) : Bool := p.getLast? == some s

/-- `Path::parent`: drops the final component; `None` when there is none. -/
def pathParent (p : Path) : Option Path :=
  match p with
  | [] => none
  | _ => some p.dropLast

/-- `std::net::IpAddr`, kept abstract as its textual form (the code only ever
converts it with `to_string`/`clone`). -/
abbrev IpAddr := String

/-- Outcome of fallible Rust code that can also panic: `anyhow::Result` plus
the `todo!`/`.expect` diverging paths, which are *not* returned error values. -/
inductive RustResult (α : Type) where
  | ok (val : α)
  | err (msg : String)
  | panic (msg : String)
deriving DecidableEq, Repr

/-- `nix_diff::Message`. Progress is `Nat` (see the header note on `f32`). -/
inductive Message where
  | StartDiff
  | IpAttrChanged (s : String)
  | DiffResult (diff : Option String)
  | Error (err : String)
  | DiffProgress (progress : Nat)
deriving DecidableEq, Repr

/-- Modelled from the spec: `ansi_to_spans`, imported by `cache::DiffCache`
from `utils::ansi_to_rich` but absent from the provided sources.  §4.4: a
one-pass parse of the escape-coded text into ordered (substring, optional
color) segments.  `ap` stands for the external `ansi_parser` tokenizer; the
walk over its tokens is the `ansi_to_rich` loop of
src/utils/ansi_to_rich.rs, which implements the same §4.4 contract. -/
def ansi_to_spans (ap : String → List Output) (s : String) : List Seg :=
  ansi_to_rich (ap s)

/-- Modelled from the spec: `make_spans`, also absent from the provided
sources, turns the parsed raw spans into the span sequence the cache stores;
§4.4 prescribes no further change to the (substring, color) content, so on
the embedded segment data it is the identity. -/
def make_spans (segs : List Seg) : List Seg := segs

/-- `cache::DiffCache`: owns the raw diff text and the derived span sequence.
The source's unsafe lifetime extension (`mem::transmute` to `'static`) only
lets the spans borrow from `raw`; value-wise the entry is this pair. -/
structure DiffCache where
  raw : String
  spans : List Seg
deriving DecidableEq, Repr

/-- `DiffCache::new`: derives the span sequence from the raw text once, at
construction, and stores both. -/
def DiffCache.new (ap : String → List Output) (diff : String) : DiffCache :=
  { raw := diff, spans := make_spans (ansi_to_spans ap diff) }

/-- `DiffCache::spans(&self)`: read-only access to the stored sequence
(a projection; no derivation happens here). -/
def DiffCache.getSpans (c : DiffCache) : List Seg := c.spans

/-- Call-count instrumentation for §4.4's "parse once" contract: the body of
`DiffCache::new` contains exactly one call of the segment derivation
(`ansi_to_spans`); the second component counts those calls. -/
def DiffCache.newCounted (ap : String → List Output) (diff : String) :
    DiffCache × Nat :=
  (DiffCache.new ap diff, 1)

/-- Call-count instrumentation for reads: the body of `spans(&self)` contains
no derivation call. -/
def DiffCache.getSpansCounted (c : DiffCache) : List Seg × Nat :=
  (c.spans, 0)

/-- `n` successive reads of one entry: the returned sequences and the total
number of derivation calls those reads perform. -/
def DiffCache.readLoop (c : DiffCache) : Nat → List (List Seg) × Nat
  | 0 => ([], 0)
  | n + 1 =>
      let r := DiffCache.getSpansCounted c
      let rest := DiffCache.readLoop c n
      (r.1 :: rest.1, r.2 + rest.2)

/-- `NixNodeDiffView`: the per-node pipeline state. -/
structure NixNodeDiffView where
  node_path : Path
  ip_attr : String
  node_name : String
  diff : Option DiffCache
  loading_diff : Bool
  error : Option String
  diff_progress : Nat
deriving DecidableEq, Repr

/-- `NixNodeDiffView::is_diffing`. -/
def NixNodeDiffView.is_diffing (v : NixNodeDiffView) : Bool := v.loading_diff

/-- `NixNodeDiffView::new`. -/
def NixNodeDiffView.new (cluster_path : Path) (ip_attr : String)
    (node_name : String) : NixNodeDiffView :=
  { node_path := cluster_path
    ip_attr := ip_attr
    node_name := node_name
    diff := none
    loading_diff := false
    error := none
    diff_progress := 0 }

/-- The task a `NixNodeDiffView::update` call returns: either `Task::none()`
or the `Task::stream(run_diff(cluster_path, node_name, ip_attr))` spawned by
`run_diff_task`, carrying the cloned arguments of the spawned run. -/
inductive UpdateEffect where
  | none
  | startRun (cluster_path : Path) (node_name : String) (ip_attr : String)
deriving DecidableEq, Repr

/-- Whether an effect spawns a run. -/
def UpdateEffect.isStart : UpdateEffect → Bool
  | UpdateEffect.none => false
  | UpdateEffect.startRun _ _ _ => true

/-- `NixNodeDiffView::run_diff_task`: flags the view as loading and spawns the
stream over the cloned `(node_path, node_name, ip_attr)`. -/
def NixNodeDiffView.run_diff_task (v : NixNodeDiffView) :
    NixNodeDiffView × UpdateEffect :=
  ({ v with loading_diff := true },
   UpdateEffect.startRun v.node_path v.node_name v.ip_attr)

/-- `NixNodeDiffView::update`.  `ap` is the external tokenizer `DiffCache::new`
ultimately consults (see `ansi_to_spans`). -/
def NixNodeDiffView.update (ap : String → List Output) (v : NixNodeDiffView) :
    Message → NixNodeDiffView × UpdateEffect
  | Message.StartDiff =>
      if !v.loading_diff then v.run_diff_task else (v, UpdateEffect.none)
  | Message.IpAttrChanged ip_attr =>
      ({ v with ip_attr :=
          if ip_attr.isEmpty then "config.base.primaryIP.address" else ip_attr },
       UpdateEffect.none)
  | Message.DiffResult diff =>
      ({ v with loading_diff := false, diff := diff.map (DiffCache.new ap) },
       UpdateEffect.none)
  | Message.DiffProgress progress =>
      ({ v with diff_progress := progress }, UpdateEffect.none)
  | Message.Error err =>
      ({ v with error := some err }, UpdateEffect.none)

/-! ## src/pages/nix_diff.rs — external interfaces

The pipeline drives external tools and a network session (§6); the embedding
passes their behaviour in as one oracle record, keyed by exactly the values
the code hands them. -/

/-- The fields `ssh2_config`'s `query` returns that the code reads. -/
structure SshParams where
  bind_address : Option String
  port : Option Nat
  user : Option String
deriving DecidableEq, Repr

/-- One pipeline run's external world (§6 interfaces):
* `isFile` — `Path::is_file`;
* `cmdReadIn dir args` — `cmd(args).dir(dir).read()` (stdout on success);
* `cmdRead args` — `cmd!(args).read()` with no working directory;
* `cmdRun args` — `cmd!(args).run()` (status only);
* `jsonParseString` — `serde_json::from_str::<String>` (`none` = parse error
  or non-string JSON);
* `parseIp` — `str::parse::<IpAddr>` (`none` = address parse error);
* `sshConfigDefault` — `SshConfig::parse_default_file(ParseRule::STRICT)`,
  exposed as the `query` function over the host string;
* `tcpConnect` — `TcpStream::connect((addr, port))`;
* `sessionNew` — whether `ssh2::Session::new()` succeeds (`.expect` panics
  otherwise);
* `handshake`, `userauthAgent`, `sftpOpen`, `sftpRealpath` — the ssh session
  calls, in the order the run makes them;
* `username` — `whoami::username()`. -/
structure ExternalWorld where
  isFile : Path → Bool
  cmdReadIn : Path → List String → Except String String
  cmdRead : List String → Except String String
  cmdRun : List String → Except String Unit
  jsonParseString : String → Option String
  parseIp : String → Option IpAddr
  sshConfigDefault : Except String (String → SshParams)
  tcpConnect : IpAddr → Nat → Except String Unit
  sessionNew : Bool
  handshake : Except String Unit
  userauthAgent : String → Except String Unit
  sftpOpen : Except String Unit
  sftpRealpath : String → Except String String
  username : String

/-- `run_nix_command_in_dir`: refuses a non-file path, requires a parent
directory, then runs `nix` there.  `anyhow`'s `Display` shows the outermost
context, which is what `err.to_string()` later surfaces, so a context
replaces the message. -/
def run_nix_command_in_dir (w : ExternalWorld) (file_path : Path)
    (args : List String) : Except String String :=
  if !w.isFile file_path then Except.error "Nix Cluster path is not a file"
  else
    match pathParent file_path with
    | none => Except.error "Cluster path file did not have a parent folder."
    | some parent =>
        match w.cmdReadIn parent ("nix" :: args) with
        | Except.ok out => Except.ok out
        | Except.error _ => Except.error "Failed to run nix command"

/-- The argument list `ip_from_node` evaluates. -/
def ipEvalArgs (node_name ip_attr : String) : List String :=
  ["eval", ".#nixosConfigurations." ++ node_name ++ "." ++ ip_attr, "--json"]

/-- `ip_from_node`: on a `flake.nix` descriptor, evaluate the address
attribute as JSON, expect a JSON string, parse it as an address.  On any
other descriptor the code hits `todo!("only flakes are supported right
now")` — a panic, not a returned error. -/
def ip_from_node (w : ExternalWorld) (cluster_path : Path)
    (node_name ip_attr : String) : RustResult IpAddr :=
  if pathEndsWith cluster_path "flake.nix" then
    match run_nix_command_in_dir w cluster_path (ipEvalArgs node_name ip_attr) with
    | Except.error e => RustResult.err e
    | Except.ok ip_json =>
        match w.jsonParseString ip_json with
        | none => RustResult.err ("Could not parse JSON " ++ ip_json)
        | some ip_str =>
            match w.parseIp ip_str with
            | none => RustResult.err "invalid IP address syntax"
            | some ip => RustResult.ok ip
  else
    RustResult.panic "not yet implemented: only flakes are supported right now"

/-- One item of the `run_diff` stream.  `?` inside the `stream!` body yields
the error as the stream's final item and ends it; a panic (`todo!`,
`.expect`) kills the task, so nothing follows it. -/
inductive StreamItem where
  | ok (m : Message)
  | err (e : String)
  | panic (e : String)
deriving DecidableEq, Repr

/-- `run_diff` from src/pages/nix_diff.rs: the sequenced pipeline as the list
of items its stream yields, with every external step answered by `w`.  Each
stage is gated on the previous one; a progress tick follows each completed
stage; the first failure ends the stream with its (outermost-context)
message. -/
def run_diff (w : ExternalWorld) (cluster_path : Path)
    (node_name ip_attr : String) : List StreamItem :=
  StreamItem.ok (Message.DiffProgress 0) ::
  match ip_from_node w cluster_path node_name ip_attr with
  | RustResult.panic e => [StreamItem.panic e]
  | RustResult.err _ => [StreamItem.err "Could not find IP Address of Node"]
  | RustResult.ok ip =>
    StreamItem.ok (Message.DiffProgress 1) ::
    match pathParent cluster_path with
    | none => [StreamItem.err "Could not get cluster directory"]
    | some cluster_dir =>
      StreamItem.ok (Message.DiffProgress 2) ::
      match w.cmdReadIn cluster_dir
          ["nix", "build",
           ".#nixosConfigurations." ++ node_name ++ ".config.system.build.toplevel",
           "--print-out-paths"] with
      | Except.error _ => [StreamItem.err "Could not build local node"]
      | Except.ok new_drv =>
        StreamItem.ok (Message.DiffProgress 3) ::
        match w.sshConfigDefault with
        | Except.error e => [StreamItem.err e]
        | Except.ok query =>
          StreamItem.ok (Message.DiffProgress 4) ::
          match w.tcpConnect (((query ip).bind_address.bind w.parseIp).getD ip)
              ((query ip).port.getD 22) with
          | Except.error e => [StreamItem.err e]
          | Except.ok _ =>
            StreamItem.ok (Message.DiffProgress 5) ::
            match w.sessionNew with
            | false => [StreamItem.panic "Could not create ssh session"]
            | true =>
              match w.handshake with
              | Except.error e => [StreamItem.err e]
              | Except.ok _ =>
                StreamItem.ok (Message.DiffProgress 6) ::
                match w.userauthAgent ((query ip).user.getD w.username) with
                | Except.error e => [StreamItem.err e]
                | Except.ok _ =>
                  StreamItem.ok (Message.DiffProgress 7) ::
                  match w.sftpOpen with
                  | Except.error e => [StreamItem.err e]
                  | Except.ok _ =>
                    StreamItem.ok (Message.DiffProgress 8) ::
                    match w.sftpRealpath "/nix/var/nix/profiles/system/system" with
                    | Except.error e => [StreamItem.err e]
                    | Except.ok system_drv =>
                      StreamItem.ok (Message.DiffProgress 9) ::
                      match w.cmdRun ["nix-copy-closure", "--from", ip, system_drv] with
                      | Except.error _ =>
                          [StreamItem.err "Could not download system closure"]
                      | Except.ok _ =>
                        StreamItem.ok (Message.DiffProgress 10) ::
                        match w.cmdRead
                            ["nvd", "--color", "always", "diff", system_drv, new_drv] with
                        | Except.error _ =>
                            [StreamItem.err "Could not diff the two derivations"]
                        | Except.ok diff_out =>
                            [StreamItem.ok (Message.DiffResult (some diff_out))]

/-- The number of stage checkpoints a run passes before stopping, read off the
same oracle outcomes in the code's order: checkpoint `k` is the code point
that yields `DiffProgress(k)` (1 address, 2 base dir, 3 build, 4 ssh config,
5 connect, 6 handshake, 7 auth, 8 sftp channel, 9 realpath, 10 closure copy;
the diff-tool invocation runs after checkpoint 10). -/
def stagesDone (w : ExternalWorld) (cluster_path : Path)
    (node_name ip_attr : String) : Nat :=
  match ip_from_node w cluster_path node_name ip_attr with
  | RustResult.panic _ => 0
  | RustResult.err _ => 0
  | RustResult.ok ip =>
  match pathParent cluster_path with
  | none => 1
  | some cluster_dir =>
  match w.cmdReadIn cluster_dir
      ["nix", "build",
       ".#nixosConfigurations." ++ node_name ++ ".config.system.build.toplevel",
       "--print-out-paths"] with
  | Except.error _ => 2
  | Except.ok _ =>
  match w.sshConfigDefault with
  | Except.error _ => 3
  | Except.ok query =>
  match w.tcpConnect (((query ip).bind_address.bind w.parseIp).getD ip)
      ((query ip).port.getD 22) with
  | Except.error _ => 4
  | Except.ok _ =>
  match w.sessionNew with
  | false => 5
  | true =>
  match w.handshake with
  | Except.error _ => 5
  | Except.ok _ =>
  match w.userauthAgent ((query ip).user.getD w.username) with
  | Except.error _ => 6
  | Except.ok _ =>
  match w.sftpOpen with
  | Except.error _ => 7
  | Except.ok _ =>
  match w.sftpRealpath "/nix/var/nix/profiles/system/system" with
  | Except.error _ => 8
  | Except.ok system_drv =>
  match w.cmdRun ["nix-copy-closure", "--from", ip, system_drv] with
  | Except.error _ => 9
  | Except.ok _ => 10

/-- The `.then(...)` post-processing of `run_diff_task`: an `Ok(msg)` item
becomes that message; an `Err(err)` item becomes
`DiffResult(None)`, then `Error(err.to_string())`, then `DiffProgress(0.0)`;
a panic kills the task, so it contributes nothing and nothing follows it. -/
def run_diff_task_messages : List StreamItem → List Message
  | [] => []
  | StreamItem.ok m :: rest => m :: run_diff_task_messages rest
  | StreamItem.err e :: rest =>
      Message.DiffResult none :: Message.Error e :: Message.DiffProgress 0 ::
        run_diff_task_messages rest
  | StreamItem.panic _ :: rest => run_diff_task_messages rest

/-- The progress values a stream emits, in order. -/
def progressValues : List StreamItem → List Nat
  | [] => []
  | StreamItem.ok (Message.DiffProgress p) :: rest => p :: progressValues rest
  | _ :: rest => progressValues rest

/-- Whether a stream contains a failure item. -/
def hasErr : List StreamItem → Bool
  | [] => false
  | StreamItem.err _ :: _ => true
  | _ :: rest => hasErr rest

/-- The progress prefix a run that passed `k` checkpoints has yielded:
`DiffProgress 0, …, DiffProgress k`. -/
def ticks (k : Nat) : List StreamItem :=
  (List.range (k + 1)).map fun i => StreamItem.ok (Message.DiffProgress i)

/-- One event-loop step: deliver a message to the view, remembering whether
any delivered message has spawned a new run. -/
def applyStep (ap : String → List Output) (acc : NixNodeDiffView × Bool)
    (m : Message) : NixNodeDiffView × Bool :=
  ((NixNodeDiffView.update ap acc.1 m).1,
   acc.2 || (NixNodeDiffView.update ap acc.1 m).2.isStart)

/-- Folds a message list through `NixNodeDiffView::update` (the event loop
delivering the task's messages back to the view, in order), recording whether
any of them spawned a new run. -/
def applyMessages (ap : String → List Output) (v : NixNodeDiffView)
    (ms : List Message) : NixNodeDiffView × Bool :=
  ms.foldl (applyStep ap) (v, false)

/-! ## src/pages/nix_cluster.rs -/

/-- `nix_cluster::Message`. -/
inductive ClusterMessage where
  | IpAttrChanged (s : String)
  | ClusterPathChanged (s : String)
  | PickClusterDir
  | StartUpdateClusterInfo
  | UpdateClusterInfo (nodes : Option (List String))
  | NodeNameChange (idx : Nat) (s : String)
  | Error (err : String)
  | NodeDiffMessage (idx : Nat) (m : Message)
  | DiffAll
deriving DecidableEq, Repr

/-- `PathBuf::from` on the text-input string: its component list. -/
def pathFromString (s : String) : Path :=
  (s.splitOn "/").filter (fun c => !c.isEmpty)

/-- The task a `NixClusterView::update` call returns. -/
inductive ClusterEffect where
  | none
  | fetchNodes (cluster_path : Path)
  | nodeTask (idx : Nat) (e : UpdateEffect)
  | batch (es : List (Nat × UpdateEffect))
deriving DecidableEq, Repr

/-- `NixClusterView`. -/
structure NixClusterView where
  ip_attr : String
  cluster_path : Path
  all_cluster_nodes : List String
  node_diff_views : List NixNodeDiffView
  loading_cluster : Bool
  error : Option String
  current_node : Option Nat
deriving DecidableEq, Repr

/-- `NixClusterView::default`. -/
def NixClusterView.default : NixClusterView :=
  { ip_attr := "config.base.primaryIP.address"
    cluster_path := []
    all_cluster_nodes := []
    node_diff_views := []
    loading_cluster := false
    error := none
    current_node := none }

/-- `NixClusterView::start_cluster_info_update`: marks the rescan as loading,
discards every known node and per-node pipeline, and spawns
`fetch_cluster_nodes(cluster_path)`. -/
def NixClusterView.start_cluster_info_update (v : NixClusterView) :
    NixClusterView × ClusterEffect :=
  ({ v with loading_cluster := true, all_cluster_nodes := [],
            node_diff_views := [] },
   ClusterEffect.fetchNodes v.cluster_path)

/-- `NixClusterView::update`.  `ap` is the external tokenizer threaded to the
per-node views; `pick` is the result of the external `rfd::FileDialog`
file-picker (`PickClusterDir` arm). -/
def NixClusterView.update (ap : String → List Output) (pick : Option Path)
    (v : NixClusterView) : ClusterMessage → NixClusterView × ClusterEffect
  | ClusterMessage.PickClusterDir =>
      match pick with
      | some cluster_dir =>
          NixClusterView.start_cluster_info_update
            { v with cluster_path := cluster_dir }
      | none => (v, ClusterEffect.none)
  | ClusterMessage.ClusterPathChanged path =>
      ({ v with cluster_path := pathFromString path }, ClusterEffect.none)
  | ClusterMessage.StartUpdateClusterInfo =>
      NixClusterView.start_cluster_info_update v
  | ClusterMessage.UpdateClusterInfo nodes =>
      (match nodes with
       | some nodes =>
           ({ v with loading_cluster := false
                     all_cluster_nodes := nodes
                     node_diff_views := nodes.map (fun node =>
                       NixNodeDiffView.new v.cluster_path v.ip_attr node)
                     current_node :=
                       if nodes.isEmpty then none else some 0 },
            ClusterEffect.none)
       | none => ({ v with loading_cluster := false }, ClusterEffect.none))
  | ClusterMessage.IpAttrChanged changed =>
      ({ v with ip_attr := changed }, ClusterEffect.none)
  | ClusterMessage.NodeNameChange idx _ =>
      ({ v with current_node := some idx }, ClusterEffect.none)
  | ClusterMessage.Error err =>
      ({ v with error := some err }, ClusterEffect.none)
  | ClusterMessage.NodeDiffMessage idx msg =>
      (match v.node_diff_views[idx]? with
       | some view =>
           ({ v with node_diff_views :=
               v.node_diff_views.set idx (NixNodeDiffView.update ap view msg).1 },
            ClusterEffect.nodeTask idx (NixNodeDiffView.update ap view msg).2)
       | none => (v, ClusterEffect.none))
  | ClusterMessage.DiffAll =>
      ({ v with node_diff_views := v.node_diff_views.map (fun view =>
           (NixNodeDiffView.update ap view Message.StartDiff).1) },
       ClusterEffect.batch
         ((v.node_diff_views.map (fun view =>
             (NixNodeDiffView.update ap view Message.StartDiff).2)).enum))

/-! ## Concrete instances used by witnesses and counterexamples -/

/-- A trivial concrete tokenizer (the external `ansi_parse` at one input). -/
def ap0 : String → List Output := fun _ => []

/-- A concrete external world in which every stage succeeds. -/
def okWorld : ExternalWorld :=
  { isFile := fun _ => true
    cmdReadIn := fun _ _ => Except.ok "out"
    cmdRead := fun _ => Except.ok "diff text"
    cmdRun := fun _ => Except.ok ()
    jsonParseString := fun _ => some "10.0.0.5"
    parseIp := fun s => some s
    sshConfigDefault := Except.ok (fun _ => ⟨none, none, none⟩)
    tcpConnect := fun _ _ => Except.ok ()
    sessionNew := true
    handshake := Except.ok ()
    userauthAgent := fun _ => Except.ok ()
    sftpOpen := Except.ok ()
    sftpRealpath := fun _ => Except.ok "/nix/store/old"
    username := "operator" }

/-! ## Claim theorems -/

/-- C1: a `StartDiff` delivered to a view whose `loading_diff` flag is set
(state `Running`) changes nothing and spawns no task, while from any
non-`Running` state (`Idle` or terminal, i.e. `loading_diff = false`) it
flips the flag and spawns the run over the view's own path, node name and
attribute expression. -/
theorem C1_start_diff_guard (ap : String → List Output) (v : NixNodeDiffView) :
    NixNodeDiffView.update ap v Message.StartDiff =
      if v.loading_diff then (v, UpdateEffect.none)
      else ({ v with loading_diff := true },
            UpdateEffect.startRun v.node_path v.node_name v.ip_attr) := by
  cases h : v.loading_diff <;>
    simp [NixNodeDiffView.update, NixNodeDiffView.run_diff_task, h]

/-- C10: handling `DiffResult(Some(_))` stores the new cache entry but leaves
the `error` field exactly as it was (a stale message from an earlier failure
survives a later success); across all messages, `error` is only ever
overwritten by an `Error` message and never cleared. -/
theorem C10_stale_error_survives (ap : String → List Output)
    (v : NixNodeDiffView) (d : String) (m : Message) :
    (NixNodeDiffView.update ap v (Message.DiffResult (some d))).1.error
        = v.error ∧
    (NixNodeDiffView.update ap v (Message.DiffResult (some d))).1.diff
        = some (DiffCache.new ap d) ∧
    ((NixNodeDiffView.update ap v m).1.error = v.error ∨
      ∃ e, m = Message.Error e ∧
        (NixNodeDiffView.update ap v m).1.error = some e) := by
  refine ⟨rfl, rfl, ?_⟩
  cases m with
  | StartDiff =>
      cases h : v.loading_diff <;>
        simp [NixNodeDiffView.update, NixNodeDiffView.run_diff_task, h]
  | IpAttrChanged s => exact Or.inl rfl
  | DiffResult d => exact Or.inl rfl
  | DiffProgress p => exact Or.inl rfl
  | Error e => exact Or.inr ⟨e, rfl, rfl⟩

/-- C9: a rescan (`start_cluster_info_update` then `UpdateClusterInfo`)
discards every existing per-node pipeline and node name; a successful
discovery creates exactly one fresh `Idle` pipeline per discovered node, in
discovery order (no diff entry, not loading, no error, progress 0); a failed
discovery leaves the mapping empty. -/
theorem C9_rescan_fresh_pipelines (ap : String → List Output)
    (pick : Option Path) (v : NixClusterView) (nodes : List String) :
    (v.start_cluster_info_update.1.node_diff_views = []) ∧
    (v.start_cluster_info_update.1.all_cluster_nodes = []) ∧
    ((NixClusterView.update ap pick v.start_cluster_info_update.1
        (ClusterMessage.UpdateClusterInfo (some nodes))).1.node_diff_views
      = nodes.map (fun node =>
          NixNodeDiffView.new v.cluster_path v.ip_attr node)) ∧
    ((NixClusterView.update ap pick v.start_cluster_info_update.1
        (ClusterMessage.UpdateClusterInfo (some nodes))).1.node_diff_views.all
        (fun nv => nv.diff.isNone && !nv.loading_diff
          && (nv.diff_progress == 0) && nv.error.isNone) = true) ∧
    ((NixClusterView.update ap pick v.start_cluster_info_update.1
        (ClusterMessage.UpdateClusterInfo none)).1.node_diff_views = []) ∧
    ((NixClusterView.update ap pick v.start_cluster_info_update.1
        (ClusterMessage.UpdateClusterInfo none)).1.all_cluster_nodes = []) := by
  refine ⟨rfl, rfl, rfl, ?_, rfl, rfl⟩
  simp only [NixClusterView.update, NixClusterView.start_cluster_info_update,
    List.all_eq_true, List.mem_map]
  rintro nv ⟨node, _, rfl⟩
  simp [NixNodeDiffView.new]

/-- C6 helper: reads never derive (cost 0 per read). -/
lemma readLoop_cost (c : DiffCache) (n : Nat) : (c.readLoop n).2 = 0 := by
  induction n with
  | zero => rfl
  | succ n ih => simp [DiffCache.readLoop, DiffCache.getSpansCounted, ih]

/-- C6 helper: every read returns the stored sequence. -/
lemma readLoop_vals (c : DiffCache) (n : Nat) :
    (c.readLoop n).1 = List.replicate n c.spans := by
  induction n with
  | zero => rfl
  | succ n ih => simp [DiffCache.readLoop, DiffCache.getSpansCounted, ih,
      List.replicate_succ]

/-- C6: the styled segment sequence is derived from the raw text exactly once,
at construction (one derivation call in `new`, none in any number of reads);
`spans()` only projects the stored sequence, every read returns that same
derived sequence, and two entries built from equal raw text have equal
segment sequences. -/
theorem C6_cache_derives_once (ap : String → List Output) (t u : String)
    (n : Nat) :
    ((DiffCache.new ap t).spans = make_spans (ansi_to_spans ap t)) ∧
    (DiffCache.getSpans (DiffCache.new ap t)
        = make_spans (ansi_to_spans ap t)) ∧
    ((DiffCache.newCounted ap t).2 + ((DiffCache.new ap t).readLoop n).2
        = 1) ∧
    (((DiffCache.new ap t).readLoop n).1.all
        (fun l => decide (l = make_spans (ansi_to_spans ap t))) = true) ∧
    (t = u → DiffCache.getSpans (DiffCache.new ap t)
        = DiffCache.getSpans (DiffCache.new ap u)) := by
  refine ⟨rfl, rfl, ?_, ?_, ?_⟩
  · simp [DiffCache.newCounted, readLoop_cost]
  · simp only [readLoop_vals, List.all_eq_true, List.mem_replicate]
    rintro l ⟨-, rfl⟩
    simp [DiffCache.new]
  · rintro rfl
    rfl

/-- C6 witness: at a concrete tokenizer, text and read count, construction
plus two reads perform exactly one derivation, and equal raw text gives equal
sequences. -/
theorem C6_cache_derives_once_witness :
    ((DiffCache.newCounted ap0 "x").2
        + ((DiffCache.new ap0 "x").readLoop 2).2 = 1) ∧
    DiffCache.getSpans (DiffCache.new ap0 "x")
        = DiffCache.getSpans (DiffCache.new ap0 "x") :=
  ⟨(C6_cache_derives_once ap0 "x" "x" 2).2.2.1,
   (C6_cache_derives_once ap0 "x" "x" 2).2.2.2.2 rfl⟩

/-- A view holding a previous run's cache entry, not currently running. -/
def viewWithOldDiff : NixNodeDiffView :=
  { node_path := ["flake.nix"]
    ip_attr := "config.base.primaryIP.address"
    node_name := "node"
    diff := some (DiffCache.new ap0 "old diff")
    loading_diff := false
    error := none
    diff_progress := 0 }

/-- C7 counterexample: accepting a `StartDiff` (the transition into `Running`)
does NOT discard the previous cache entry — after the trigger the view is
`Running` (`loading_diff = true`) and still holds the old entry. -/
theorem C7_cex_entry_survives_running :
    (NixNodeDiffView.update ap0 viewWithOldDiff Message.StartDiff).1.loading_diff
        = true ∧
    (NixNodeDiffView.update ap0 viewWithOldDiff Message.StartDiff).1.diff
        = some (DiffCache.new ap0 "old diff") := by
  exact ⟨rfl, rfl⟩

/-- C7 as amended: the previous entry is retained across the accepted
`StartDiff` (the view keeps rendering it while `Running`) and is discarded
only when the run's `DiffResult` message is handled — replaced by the new
entry on success, cleared on failure. -/
theorem C7_amended_entry_replaced_at_result (ap : String → List Output)
    (v : NixNodeDiffView) (h : v.loading_diff = false) (d : Option String) :
    ((NixNodeDiffView.update ap v Message.StartDiff).1.diff = v.diff) ∧
    ((NixNodeDiffView.update ap v Message.StartDiff).1.loading_diff = true) ∧
    ((NixNodeDiffView.update ap v (Message.DiffResult d)).1.diff
        = d.map (DiffCache.new ap)) := by
  refine ⟨?_, ?_, rfl⟩ <;>
    simp [NixNodeDiffView.update, NixNodeDiffView.run_diff_task, h]

/-- C7 witness: the amended statement at a concrete view — the old entry
survives the trigger and the later `DiffResult` replaces it. -/
theorem C7_amended_witness :
    (NixNodeDiffView.update ap0 viewWithOldDiff
        (Message.DiffResult (some "new diff"))).1.diff
      = some (DiffCache.new ap0 "new diff") :=
  (C7_amended_entry_replaced_at_result ap0 viewWithOldDiff rfl
    (some "new diff")).2.2

/-- C4 counterexample: on a descriptor whose final component is not
`flake.nix` the code reaches `todo!` — address resolution diverges with a
panic (`RustResult.panic`, distinct from every returned `RustResult.err`),
not with a returned not-implemented error value. -/
theorem C4_cex_legacy_path_panics :
    ip_from_node okWorld ["cluster", "hive.nix"] "node" "attr"
      = RustResult.panic
          "not yet implemented: only flakes are supported right now" := by
  rfl

/-- C4 as amended: for every descriptor path not ending in `flake.nix`,
address resolution hits the explicit `todo!("only flakes are supported right
now")` — a not-implemented panic (explicit, not a silent ignore), rather
than a returned error value. -/
theorem C4_amended_legacy_path_todo (w : ExternalWorld) (p : Path)
    (node_name ip_attr : String) (h : pathEndsWith p "flake.nix" = false) :
    ip_from_node w p node_name ip_attr
      = RustResult.panic
          "not yet implemented: only flakes are supported right now" := by
  simp [ip_from_node, h]

/-- C4 witness: the amended statement at a concrete non-flake path. -/
theorem C4_amended_witness :
    ip_from_node okWorld ["hive.nix"] "node" "attr"
      = RustResult.panic
          "not yet implemented: only flakes are supported right now" :=
  C4_amended_legacy_path_todo okWorld ["hive.nix"] "node" "attr" (by decide)

/-- C5: on a flake descriptor, `ip_from_node` returns an address exactly when
the evaluator invocation returns output whose JSON parse yields a string that
parses as an address; it never panics there; and it returns an error exactly
when the evaluator invocation fails, or the output is not a JSON string
(invalid JSON or a non-string value, both `jsonParseString = none`), or the
string does not parse as an address. -/
theorem C5_ip_resolution_cases (w : ExternalWorld) (p : Path)
    (node_name ip_attr : String) (h : pathEndsWith p "flake.nix" = true) :
    (∀ ip, ip_from_node w p node_name ip_attr = RustResult.ok ip ↔
      ∃ out s,
        run_nix_command_in_dir w p (ipEvalArgs node_name ip_attr)
            = Except.ok out ∧
        w.jsonParseString out = some s ∧ w.parseIp s = some ip) ∧
    (∀ e, ip_from_node w p node_name ip_attr ≠ RustResult.panic e) ∧
    ((∃ e, ip_from_node w p node_name ip_attr = RustResult.err e) ↔
      ((∃ e, run_nix_command_in_dir w p (ipEvalArgs node_name ip_attr)
          = Except.error e) ∨
       (∃ out, run_nix_command_in_dir w p (ipEvalArgs node_name ip_attr)
           = Except.ok out ∧
         (w.jsonParseString out = none ∨
          ∃ s, w.jsonParseString out = some s ∧ w.parseIp s = none)))) := by
  simp only [ip_from_node, h, if_true]
  rcases hr : run_nix_command_in_dir w p (ipEvalArgs node_name ip_attr) with e | out
  · simp [hr]
  · rcases hj : w.jsonParseString out with _ | s
    · simp [hr, hj]
    · rcases hi : w.parseIp s with _ | ip'
      · simp [hr, hj, hi]
      · simp [hr, hj, hi]

/-- A concrete world whose evaluator answers the address query with a JSON
string that parses as an address. -/
def resolveWorld : ExternalWorld :=
  { okWorld with
    cmdReadIn := fun _ _ => Except.ok "wire"
    jsonParseString := fun s => if s = "wire" then some "10.0.0.5" else none
    parseIp := fun s => if s = "10.0.0.5" then some "10.0.0.5" else none }

/-- C5 witness: in that world resolution succeeds with the parsed address and
the result is not a panic. -/
theorem C5_ip_resolution_cases_witness :
    ip_from_node resolveWorld ["flake.nix"] "node" "attr"
        = RustResult.ok "10.0.0.5" ∧
    ip_from_node resolveWorld ["flake.nix"] "node" "attr"
        ≠ RustResult.panic "boom" :=
  ⟨((C5_ip_resolution_cases resolveWorld ["flake.nix"] "node" "attr"
      (by decide)).1 "10.0.0.5").mpr ⟨"wire", "10.0.0.5", rfl, rfl, rfl⟩,
   (C5_ip_resolution_cases resolveWorld ["flake.nix"] "node" "attr"
      (by decide)).2.1 "boom"⟩

/-! ## C8: the parameter fold agrees with "most recent relevant parameter" -/

/-- Unfolding of `isColorParam` into arithmetic. -/
lemma isColorParam_eq_true_iff (p : Nat) :
    isColorParam p = true ↔ (30 ≤ p ∧ p ≤ 37) ∨ (90 ≤ p ∧ p ≤ 97) := by
  simp [isColorParam, Bool.or_eq_true, Bool.and_eq_true, decide_eq_true_eq]

/-- Unfolding of `relevantParam` into arithmetic. -/
lemma relevantParam_eq_true_iff (p : Nat) :
    relevantParam p = true ↔
      (30 ≤ p ∧ p ≤ 37) ∨ (90 ≤ p ∧ p ≤ 97) ∨ p = 0 ∨ p = 39 := by
  simp [relevantParam, isColorParam, isResetParam, Bool.or_eq_true,
    Bool.and_eq_true, decide_eq_true_eq, beq_iff_eq, or_assoc]

/-- A relevant parameter acts on the color irrespective of the previous one:
a color parameter selects its palette entry, a reset clears. -/
lemma applyGraphicsParam_relevant (c : Option Color) (p : Nat)
    (h : relevantParam p = true) :
    applyGraphicsParam c p
      = if isColorParam p then some (ansi_color_from_code p) else none := by
  rcases (relevantParam_eq_true_iff p).mp h with h1 | h1 | h1 | h1
  · rw [applyGraphicsParam, if_neg (by omega), if_pos h1,
      if_pos ((isColorParam_eq_true_iff p).mpr (Or.inl h1))]
  · rw [applyGraphicsParam, if_neg (by omega), if_neg (by omega), if_pos h1,
      if_pos ((isColorParam_eq_true_iff p).mpr (Or.inr h1))]
  · subst h1
    rw [applyGraphicsParam, if_pos rfl,
      if_neg (by rw [isColorParam_eq_true_iff]; omega)]
  · subst h1
    rw [applyGraphicsParam, if_neg (by omega), if_neg (by omega),
      if_neg (by omega), if_pos rfl,
      if_neg (by rw [isColorParam_eq_true_iff]; omega)]

/-- An irrelevant parameter leaves the color unchanged. -/
lemma applyGraphicsParam_irrelevant (c : Option Color) (p : Nat)
    (h : relevantParam p = false) :
    applyGraphicsParam c p = c := by
  have h' : ¬((30 ≤ p ∧ p ≤ 37) ∨ (90 ≤ p ∧ p ≤ 97) ∨ p = 0 ∨ p = 39) := by
    rw [← relevantParam_eq_true_iff]
    simp [h]
  have h1 : ¬(30 ≤ p ∧ p ≤ 37) := fun hc => h' (Or.inl hc)
  have h2 : ¬(90 ≤ p ∧ p ≤ 97) := fun hc => h' (Or.inr (Or.inl hc))
  have h3 : p ≠ 0 := fun hc => h' (Or.inr (Or.inr (Or.inl hc)))
  have h4 : p ≠ 39 := fun hc => h' (Or.inr (Or.inr (Or.inr hc)))
  rw [applyGraphicsParam, if_neg h3, if_neg h1, if_neg h2, if_neg h4]

/-- The implementation's parameter fold computes the spec's "most recent
relevant parameter" color. -/
lemma foldl_applyGraphicsParam (ps : List Nat) (c : Option Color) :
    ps.foldl applyGraphicsParam c = colorAfterParams c ps := by
  induction ps generalizing c with
  | nil => rfl
  | cons p ps ih =>
      rw [List.foldl_cons, ih]
      unfold colorAfterParams
      cases hrel : relevantParam p with
      | true =>
          rw [List.filter_cons_of_pos hrel]
          cases hf : ps.filter relevantParam with
          | nil =>
              simp only [hf, List.getLast?_nil, List.getLast?_singleton]
              exact applyGraphicsParam_relevant c p hrel
          | cons q qs =>
              rw [List.getLast?_cons_cons]
              rcases hg : (q :: qs).getLast? with _ | x
              · exact absurd hg (by simp)
              · rfl
      | false =>
          rw [List.filter_cons_of_neg (by simp [hrel])]
          cases hf : ps.filter relevantParam with
          | nil =>
              simp only [hf, List.getLast?_nil]
              exact applyGraphicsParam_irrelevant c p hrel
          | cons q qs =>
              rcases hg : (q :: qs).getLast? with _ | x
              · exact absurd hg (by simp)
              · rfl

/-- The parameters of a token list distribute over append. -/
lemma allParams_append (xs ys : List Output) :
    allParams (xs ++ ys) = allParams xs ++ allParams ys := by
  simp [allParams]

/-- Extending the prefix by a text block does not change the active color. -/
lemma activeColor_append_text (pre : List Output) (t : String) :
    activeColor (pre ++ [Output.TextBlock t]) = activeColor pre := by
  simp [activeColor, allParams_append, allParams, tokenParams]

/-- Extending the prefix by a non-graphics escape does not change the active
color. -/
lemma activeColor_append_other (pre : List Output) :
    activeColor (pre ++ [Output.Escape AnsiSequence.OtherEscape])
      = activeColor pre := by
  simp [activeColor, allParams_append, allParams, tokenParams]

/-- Extending the prefix by a graphics-mode escape folds its parameters into
the active color (the implementation's fold, justified by
`foldl_applyGraphicsParam`). -/
lemma activeColor_append_graphics (pre : List Output) (m : List Nat) :
    activeColor (pre ++ [Output.Escape (AnsiSequence.SetGraphicsMode m)])
      = m.foldl applyGraphicsParam (activeColor pre) := by
  rw [activeColor, allParams_append]
  have h1 : allParams [Output.Escape (AnsiSequence.SetGraphicsMode m)] = m := by
    simp [allParams, tokenParams]
  rw [h1, ← foldl_applyGraphicsParam (allParams pre ++ m) none,
    List.foldl_append, foldl_applyGraphicsParam (allParams pre) none]
  rfl

/-- The spec-side segment builder agrees with the implementation's loop run
from the color the consumed prefix leaves active. -/
lemma ansiSegmentsSpec_go_eq (rest : List Output) :
    ∀ pre, ansiSegmentsSpec_go pre rest = ansi_to_rich_go (activeColor pre) rest := by
  induction rest with
  | nil => intro pre; rfl
  | cons tok rest ih =>
      intro pre
      cases tok with
      | TextBlock t =>
          rw [ansiSegmentsSpec_go, ansi_to_rich_go, ih,
            activeColor_append_text]
      | Escape e =>
          cases e with
          | SetGraphicsMode m =>
              rw [ansiSegmentsSpec_go, ansi_to_rich_go, ih,
                activeColor_append_graphics]
          | OtherEscape =>
              rw [ansiSegmentsSpec_go, ansi_to_rich_go, ih,
                activeColor_append_other]

/-- Whether a token is a text block. -/
def isTextBlock : Output → Bool
  | Output.TextBlock _ => true
  | Output.Escape _ => false

/-- The loop emits exactly one segment per text block. -/
lemma ansi_to_rich_go_length (tokens : List Output) :
    ∀ c, (ansi_to_rich_go c tokens).length = tokens.countP isTextBlock := by
  induction tokens with
  | nil => intro c; rfl
  | cons tok rest ih =>
      intro c
      cases tok with
      | TextBlock t =>
          simp [ansi_to_rich_go, ih, List.countP_cons, isTextBlock]
      | Escape e =>
          cases e with
          | SetGraphicsMode m =>
              simp [ansi_to_rich_go, ih, List.countP_cons, isTextBlock]
          | OtherEscape =>
              simp [ansi_to_rich_go, ih, List.countP_cons, isTextBlock]

/-- C8: for every token stream the external tokenizer can produce,
`ansi_to_rich` yields exactly one segment per text block, and equals the
spec-side description: each segment carries the color selected by the most
recent graphics parameter in `30..=37`/`90..=97` (through the fixed
16-entry palette), no color after a reset parameter (`0` or `39`) or when
none is active, with all other graphics parameters and all non-graphics
escapes ignored without error. -/
theorem C8_ansi_segments_spec (tokens : List Output) :
    ansi_to_rich tokens = ansiSegmentsSpec tokens ∧
    (ansi_to_rich tokens).length = tokens.countP isTextBlock := by
  constructor
  · rw [ansi_to_rich, ansiSegmentsSpec, ansiSegmentsSpec_go_eq]
    rfl
  · rw [ansi_to_rich, ansi_to_rich_go_length]

/-! ## C2/C3: the shape of a run's stream -/

/-- The checkpoint count never exceeds 10. -/
lemma stagesDone_le (w : ExternalWorld) (p : Path) (n a : String) :
    stagesDone w p n a ≤ 10 := by
  unfold stagesDone
  repeat' split
  all_goals omega

/-- Every run's stream is the tick prefix of its checkpoint count followed by
one terminal item: an error, a panic, or the successful diff result (the
latter exactly at checkpoint count 10). -/
lemma run_diff_shape (w : ExternalWorld) (p : Path) (n a : String) :
    (∃ e, run_diff w p n a
        = ticks (stagesDone w p n a) ++ [StreamItem.err e]) ∨
    (∃ e, run_diff w p n a
        = ticks (stagesDone w p n a) ++ [StreamItem.panic e]) ∨
    (∃ out, stagesDone w p n a = 10 ∧
      run_diff w p n a
        = ticks 10 ++ [StreamItem.ok (Message.DiffResult (some out))]) := by
  cases hip : ip_from_node w p n a with
  | panic e =>
      exact Or.inr (Or.inl ⟨e, by simp only [run_diff, stagesDone, hip]; rfl⟩)
  | err e =>
      exact Or.inl ⟨_, by simp only [run_diff, stagesDone, hip]; rfl⟩
  | ok ip =>
  cases hpar : pathParent p with
  | none =>
      exact Or.inl ⟨_, by simp only [run_diff, stagesDone, hip, hpar]; rfl⟩
  | some cluster_dir =>
  cases hb : w.cmdReadIn cluster_dir
      ["nix", "build",
       ".#nixosConfigurations." ++ n ++ ".config.system.build.toplevel",
       "--print-out-paths"] with
  | error e =>
      exact Or.inl ⟨_, by simp only [run_diff, stagesDone, hip, hpar, hb]; rfl⟩
  | ok new_drv =>
  cases hc : w.sshConfigDefault with
  | error e =>
      exact Or.inl ⟨e, by
        simp only [run_diff, stagesDone, hip, hpar, hb, hc]; rfl⟩
  | ok query =>
  cases ht : w.tcpConnect (((query ip).bind_address.bind w.parseIp).getD ip)
      ((query ip).port.getD 22) with
  | error e =>
      exact Or.inl ⟨e, by
        simp only [run_diff, stagesDone, hip, hpar, hb, hc, ht]; rfl⟩
  | ok u1 =>
  cases hs : w.sessionNew with
  | false =>
      exact Or.inr (Or.inl ⟨_, by
        simp only [run_diff, stagesDone, hip, hpar, hb, hc, ht, hs]; rfl⟩)
  | true =>
  cases hh : w.handshake with
  | error e =>
      exact Or.inl ⟨e, by
        simp only [run_diff, stagesDone, hip, hpar, hb, hc, ht, hs, hh]; rfl⟩
  | ok u2 =>
  cases ha : w.userauthAgent ((query ip).user.getD w.username) with
  | error e =>
      exact Or.inl ⟨e, by
        simp only [run_diff, stagesDone, hip, hpar, hb, hc, ht, hs, hh, ha]
        rfl⟩
  | ok u3 =>
  cases hf : w.sftpOpen with
  | error e =>
      exact Or.inl ⟨e, by
        simp only [run_diff, stagesDone, hip, hpar, hb, hc, ht, hs, hh, ha, hf]
        rfl⟩
  | ok u4 =>
  cases hr : w.sftpRealpath "/nix/var/nix/profiles/system/system" with
  | error e =>
      exact Or.inl ⟨e, by
        simp only [run_diff, stagesDone, hip, hpar, hb, hc, ht, hs, hh, ha,
          hf, hr]
        rfl⟩
  | ok system_drv =>
  cases hy : w.cmdRun ["nix-copy-closure", "--from", ip, system_drv] with
  | error e =>
      exact Or.inl ⟨_, by
        simp only [run_diff, stagesDone, hip, hpar, hb, hc, ht, hs, hh, ha,
          hf, hr, hy]
        rfl⟩
  | ok u5 =>
  cases hv : w.cmdRead ["nvd", "--color", "always", "diff", system_drv,
      new_drv] with
  | error e =>
      exact Or.inl ⟨_, by
        simp only [run_diff, stagesDone, hip, hpar, hb, hc, ht, hs, hh, ha,
          hf, hr, hy, hv]
        rfl⟩
  | ok diff_out =>
      exact Or.inr (Or.inr ⟨diff_out,
        by simp only [stagesDone, hip, hpar, hb, hc, ht, hs, hh, ha, hf, hr,
             hy],
        by simp only [run_diff, hip, hpar, hb, hc, ht, hs, hh, ha, hf, hr,
             hy, hv]
           rfl⟩)

/-- The tick prefix is ok-wrapped progress messages. -/
lemma ticks_eq_map (k : Nat) :
    ticks k = ((List.range (k + 1)).map Message.DiffProgress).map StreamItem.ok := by
  simp [ticks, List.map_map]

/-- Progress values of an ok-progress prefix. -/
lemma progressValues_mapOk (ms : List Nat) (rest : List StreamItem) :
    progressValues
        ((ms.map fun i => StreamItem.ok (Message.DiffProgress i)) ++ rest)
      = ms ++ progressValues rest := by
  induction ms with
  | nil => rfl
  | cons m ms ih => simp [progressValues, ih]

/-- Progress values of a tick prefix. -/
lemma progressValues_ticks (k : Nat) (rest : List StreamItem) :
    progressValues (ticks k ++ rest) = List.range (k + 1) ++ progressValues rest :=
  progressValues_mapOk (List.range (k + 1)) rest

/-- `hasErr` ignores ok items. -/
lemma hasErr_mapOk (ms : List Message) (rest : List StreamItem) :
    hasErr ((ms.map StreamItem.ok) ++ rest) = hasErr rest := by
  induction ms with
  | nil => rfl
  | cons m ms ih => simpa [hasErr] using ih

/-- `hasErr` over a tick prefix. -/
lemma hasErr_ticks (k : Nat) (rest : List StreamItem) :
    hasErr (ticks k ++ rest) = hasErr rest := by
  rw [ticks_eq_map]
  exact hasErr_mapOk _ rest

/-- The task layer forwards an ok prefix unchanged. -/
lemma run_diff_task_messages_mapOk (ms : List Message) (rest : List StreamItem) :
    run_diff_task_messages ((ms.map StreamItem.ok) ++ rest)
      = ms ++ run_diff_task_messages rest := by
  induction ms with
  | nil => rfl
  | cons m ms ih => simp [run_diff_task_messages, ih]

/-- A list whose last element is the last of its nonempty right part. -/
lemma getLast?_append_right {α : Type} (l m : List α) (x : α)
    (h : m.getLast? = some x) : (l ++ m).getLast? = some x := by
  induction l with
  | nil => exact h
  | cons a t ih =>
      cases htm : t ++ m with
      | nil =>
          cases m with
          | nil => simp at h
          | cons b u => simp at htm
      | cons b u =>
          rw [List.cons_append, htm, List.getLast?_cons_cons, ← htm]
          exact ih

/-- C2 counterexample input: every stage succeeds but the external diff tool
fails. -/
def diffToolFailWorld : ExternalWorld :=
  { okWorld with cmdRead := fun _ => Except.error "nvd exited nonzero" }

/-- C2 counterexample: with the diff tool failing, tick 10 is emitted even
though the run fails before §4.3's stage 10 completes (stage 10 includes the
structural-diff invocation and capture: no `DiffResult` is ever yielded, the
stream ends in an error right after tick 10). -/
theorem C2_cex_tick10_before_diff :
    run_diff diffToolFailWorld ["flake.nix"] "node" "attr"
      = ticks 10 ++ [StreamItem.err "Could not diff the two derivations"] ∧
    StreamItem.ok (Message.DiffProgress 10)
      ∈ run_diff diffToolFailWorld ["flake.nix"] "node" "attr" ∧
    hasErr (run_diff diffToolFailWorld ["flake.nix"] "node" "attr") = true := by
  refine ⟨by rfl, by decide, by rfl⟩

/-- C2 as amended: within one run the emitted progress values are
non-decreasing and lie in [0, 10]; tick `N` is emitted only when the first
`N` stage checkpoints have completed (checkpoint 10 being the closure copy —
the diff-tool invocation follows tick 10); and when any stage fails, the
task layer's message stream ends with the `DiffProgress 0` reset. -/
theorem C2_progress_discipline (w : ExternalWorld) (p : Path) (n a : String) :
    List.Pairwise (· ≤ ·) (progressValues (run_diff w p n a)) ∧
    (∀ x ∈ progressValues (run_diff w p n a), x ≤ 10) ∧
    (∀ N ∈ progressValues (run_diff w p n a), N ≤ stagesDone w p n a) ∧
    (hasErr (run_diff w p n a) = true →
      (run_diff_task_messages (run_diff w p n a)).getLast?
        = some (Message.DiffProgress 0)) := by
  have hle := stagesDone_le w p n a
  have hpv : progressValues (run_diff w p n a)
      = List.range (stagesDone w p n a + 1) := by
    rcases run_diff_shape w p n a with ⟨e, he⟩ | ⟨e, he⟩ | ⟨out, h10, he⟩
    · rw [he, progressValues_ticks]
      simp [progressValues]
    · rw [he, progressValues_ticks]
      simp [progressValues]
    · rw [he, h10, progressValues_ticks]
      simp [progressValues]
  refine ⟨?_, ?_, ?_, ?_⟩
  · rw [hpv]
    exact List.pairwise_le_range _
  · rw [hpv]
    intro x hx
    have := List.mem_range.mp hx
    omega
  · rw [hpv]
    intro N hN
    have := List.mem_range.mp hN
    omega
  · intro herr
    rcases run_diff_shape w p n a with ⟨e, he⟩ | ⟨e, he⟩ | ⟨out, h10, he⟩
    · rw [he, ticks_eq_map, run_diff_task_messages_mapOk]
      exact getLast?_append_right _ _ _ rfl
    · rw [he, hasErr_ticks] at herr
      exact absurd herr (by simp [hasErr])
    · rw [he, hasErr_ticks] at herr
      exact absurd herr (by simp [hasErr])

/-- C2 witness: in the all-success world the emitted value 7 is a tick within
bounds, witnessing the amended discipline at a concrete input. -/
theorem C2_progress_discipline_witness :
    7 ∈ progressValues (run_diff okWorld ["flake.nix"] "node" "attr") ∧
    7 ≤ 10 :=
  ⟨by decide,
   (C2_progress_discipline okWorld ["flake.nix"] "node" "attr").2.1 7
     (by decide)⟩

/-- Delivering the tick prefix only moves the progress field and spawns
nothing. -/
lemma foldl_applyStep_progress (ap : String → List Output)
    (v : NixNodeDiffView) (k : Nat) :
    ((List.range (k + 1)).map Message.DiffProgress).foldl (applyStep ap)
        (v, false)
      = ({ v with diff_progress := k }, false) := by
  induction k with
  | zero => rfl
  | succ k ih =>
      rw [List.range_succ, List.map_append, List.foldl_append, ih]
      rfl

/-- Delivering the failure triple `DiffResult(None); Error(e);
DiffProgress(0)` clears the loading flag and the cache entry, stores the
message, resets progress, and spawns nothing. -/
lemma foldl_applyStep_failTail (ap : String → List Output)
    (v1 : NixNodeDiffView) (e : String) :
    ([Message.DiffResult none, Message.Error e,
        Message.DiffProgress 0].foldl (applyStep ap) (v1, false))
      = ({ v1 with
            loading_diff := false
            diff := none
            error := some e
            diff_progress := 0 }, false) := by
  rfl

/-- C3 as amended: when any stage of a run fails, delivering the task's
messages leaves the node in the failed state — an error message is stored,
the progress tick is reset to 0, no diff text is retained and no cache entry
is created from the failed run (the node's diff cache is cleared to `none`,
discarding any previously stored entry rather than leaving it untouched),
the view is no longer loading, and no new run is spawned (no automatic
retry). -/
theorem C3_failure_resets_state (w : ExternalWorld) (p : Path) (n a : String)
    (ap : String → List Output) (v : NixNodeDiffView)
    (h : hasErr (run_diff w p n a) = true) :
    (∃ e, (applyMessages ap v
        (run_diff_task_messages (run_diff w p n a))).1.error = some e) ∧
    (applyMessages ap v
        (run_diff_task_messages (run_diff w p n a))).1.diff_progress = 0 ∧
    (applyMessages ap v
        (run_diff_task_messages (run_diff w p n a))).1.diff = none ∧
    (applyMessages ap v
        (run_diff_task_messages (run_diff w p n a))).1.loading_diff = false ∧
    (applyMessages ap v
        (run_diff_task_messages (run_diff w p n a))).2 = false := by
  rcases run_diff_shape w p n a with ⟨e, he⟩ | ⟨e, he⟩ | ⟨out, h10, he⟩
  · have hmsg : run_diff_task_messages (run_diff w p n a)
        = ((List.range (stagesDone w p n a + 1)).map Message.DiffProgress)
          ++ [Message.DiffResult none, Message.Error e,
              Message.DiffProgress 0] := by
      rw [he, ticks_eq_map, run_diff_task_messages_mapOk]
      rfl
    rw [hmsg]
    unfold applyMessages
    rw [List.foldl_append, foldl_applyStep_progress, foldl_applyStep_failTail]
    exact ⟨⟨e, rfl⟩, rfl, rfl, rfl, rfl⟩
  · rw [he, hasErr_ticks] at h
    exact absurd h (by simp [hasErr])
  · rw [he, hasErr_ticks] at h
    exact absurd h (by simp [hasErr])

/-- C3 input: the build tool fails (stage 3); discovery-time evaluation still
answers. -/
def buildFailWorld : ExternalWorld :=
  { okWorld with cmdReadIn := fun _ args =>
      if args.get? 1 = some "build" then Except.error "nix build failed"
      else Except.ok "out" }

/-- C3 witness: the amended statement at the concrete build failure — the run
fails, and delivering its messages resets progress, clears the cache and
spawns no retry. -/
theorem C3_failure_resets_state_witness :
    hasErr (run_diff buildFailWorld ["flake.nix"] "node" "attr") = true ∧
    (applyMessages ap0 (NixNodeDiffView.new ["flake.nix"]
        "config.base.primaryIP.address" "node")
        (run_diff_task_messages
          (run_diff buildFailWorld ["flake.nix"] "node" "attr"))).1.diff_progress
      = 0 ∧
    (applyMessages ap0 (NixNodeDiffView.new ["flake.nix"]
        "config.base.primaryIP.address" "node")
        (run_diff_task_messages
          (run_diff buildFailWorld ["flake.nix"] "node" "attr"))).2
      = false :=
  ⟨by rfl,
   (C3_failure_resets_state buildFailWorld ["flake.nix"] "node" "attr" ap0
      (NixNodeDiffView.new ["flake.nix"] "config.base.primaryIP.address"
        "node") (by rfl)).2.1,
   (C3_failure_resets_state buildFailWorld ["flake.nix"] "node" "attr" ap0
      (NixNodeDiffView.new ["flake.nix"] "config.base.primaryIP.address"
        "node") (by rfl)).2.2.2.2⟩

/-- C3 counterexample: the render cache is NOT left untouched by a failed
run — a view holding a previous entry has it cleared to `none` when the
failing run's messages are delivered. -/
theorem C3_cex_cache_not_untouched :
    viewWithOldDiff.diff ≠ none ∧
    (applyMessages ap0 viewWithOldDiff
        (run_diff_task_messages
          (run_diff buildFailWorld ["flake.nix"] "node" "attr"))).1.diff
      = none := by
  exact ⟨by simp [viewWithOldDiff], by rfl⟩

end CheckIT
